import Mathlib

/-!
Verification of the statistics-derivation layer of a football (soccer) match
analysis application.  The embedded code comes from `src/stats/matches.py`
(player stat aggregation, score reconstruction, team stat aggregation) and
`src/routers/api.py` (the `/player_stats` HTTP endpoint).

An event table is embedded as a list of `MatchEvent` records: one row per
on-pitch event, with the columns the statistics layer reads.  A missing
(NaN) cell of an optional column is `none`; a pandas comparison
`column == value` is false on NaN, which the embedding renders as
`e.field = some value`.
-/

/-- One row of a match event table, with the columns read by
`src/stats/matches.py`: `team`, `player`, `minute`, `type`, `pass_outcome`,
`shot_outcome`, `dribble_outcome`, `shot_type`. -/
structure MatchEvent where
  team : String
  player : Option String
  minute : Nat
  type : String
  pass_outcome : Option String
  shot_outcome : Option String
  dribble_outcome : Option String
  shot_type : Option String
deriving Repr, DecidableEq

/-- The ten-field record of `src/models/player_stats.py` (pydantic model
`PlayerStats`); every field is an integer count. -/
structure PlayerStats where
  passes_completed : Nat
  passes_attempted : Nat
  shots : Nat
  shots_on_target : Nat
  fouls_committed : Nat
  fouls_won : Nat
  tackles : Nat
  interceptions : Nat
  dribbles_successful : Nat
  dribbles_attempted : Nat
deriving Repr, DecidableEq

/-- The all-zero record built in the `except` branch of
`get_single_player_stats` (`src/stats/matches.py` lines 148-163). -/
def zeroPlayerStats : PlayerStats :=
  { passes_completed := 0
    passes_attempted := 0
    shots := 0
    shots_on_target := 0
    fouls_committed := 0
    fouls_won := 0
    tackles := 0
    interceptions := 0
    dribbles_successful := 0
    dribbles_attempted := 0 }

/-- The time-window filter of `get_single_player_stats`
(`src/stats/matches.py` lines 99-105): an `if / elif / elif` chain on the
`time` string; any other string (including `"whole_match"`) applies no
filter. -/
def match_time_filter (time : String) (events : List MatchEvent) : List MatchEvent :=
  if time = "first_half" then events.filter (fun e => e.minute ≤ 45)
  else if time = "second_half" then events.filter (fun e => 45 < e.minute)
  else if time = "overtime" then events.filter (fun e => 90 < e.minute)
  else events

/-- Embedding of `get_single_player_stats` (`src/stats/matches.py` lines
77-165): filter the event table by the time window, return the all-zero
record if no events remain or the named player has no remaining event
(the code raises and the catch-all `except` returns the zero record),
otherwise count each statistic over the player's events. -/
def get_single_player_stats (events : List MatchEvent) (player_name : String)
    (time : String) : PlayerStats :=
  let events := match_time_filter time events
  if events.isEmpty then zeroPlayerStats
  else
    let player_events := events.filter (fun e => e.player = some player_name)
    if player_events.isEmpty then zeroPlayerStats
    else
      { passes_completed :=
          (player_events.filter (fun e => e.type = "Pass" ∧ e.pass_outcome = none)).length
        passes_attempted :=
          (player_events.filter (fun e => e.type = "Pass")).length
        shots :=
          (player_events.filter (fun e => e.type = "Shot")).length
        shots_on_target :=
          (player_events.filter
            (fun e => e.type = "Shot" ∧ e.shot_outcome = some "On Target")).length
        fouls_committed :=
          (player_events.filter (fun e => e.type = "Foul Committed")).length
        fouls_won :=
          (player_events.filter (fun e => e.type = "Foul Won")).length
        tackles :=
          (player_events.filter (fun e => e.type = "Tackle")).length
        interceptions :=
          (player_events.filter (fun e => e.type = "Interception")).length
        dribbles_successful :=
          (player_events.filter
            (fun e => e.type = "Dribble" ∧ e.dribble_outcome = some "Complete")).length
        dribbles_attempted :=
          (player_events.filter (fun e => e.type = "Dribble")).length }

/-- Spec-side window predicate, following the spec's words: `first_half` =
minute ≤ 45, `second_half` = minute > 45, `overtime` = minute > 90, any
other selector (in particular `whole_match`) = no restriction. -/
def specInWindow (time : String) (e : MatchEvent) : Prop :=
  if time = "first_half" then e.minute ≤ 45
  else if time = "second_half" then 45 < e.minute
  else if time = "overtime" then 90 < e.minute
  else True

instance (time : String) (e : MatchEvent) : Decidable (specInWindow time e) := by
  unfold specInWindow; infer_instance

/-- Spec-side counting rule: the number of events of the table that lie in
the chosen window, belong to the named player, and satisfy the per-field
condition `t`. -/
def specWindowPlayerCount (events : List MatchEvent) (player_name : String)
    (time : String) (t : MatchEvent → Prop) [DecidablePred t] : Nat :=
  (events.filter
    (fun e => specInWindow time e ∧ e.player = some player_name ∧ t e)).length

/-! Helper lemmas about list filtering. -/

theorem filter_comp_two {α : Type} (l : List α) (p q : α → Bool) :
    (l.filter p).filter q = l.filter (fun a => p a && q a) := by
  induction l with
  | nil => rfl
  | cons x xs ih => cases hp : p x <;> cases hq : q x <;>
      simp [List.filter_cons, hp, hq, ih]

theorem filter_length_mono {α : Type} (l : List α) (p q : α → Bool)
    (h : ∀ x ∈ l, p x = true → q x = true) :
    (l.filter p).length ≤ (l.filter q).length := by
  rw [← List.countP_eq_length_filter, ← List.countP_eq_length_filter]
  exact List.countP_mono_left h

theorem length_filter_eq_of_iff {α : Type} (l : List α) (p q : α → Bool)
    (h : ∀ x ∈ l, p x = true ↔ q x = true) :
    (l.filter p).length = (l.filter q).length := by
  induction l with
  | nil => rfl
  | cons x xs ih =>
    have hx := h x (by simp)
    have hxs : ∀ y ∈ xs, p y = true ↔ q y = true := fun y hy => h y (by simp [hy])
    cases hp : p x
    · have hq : q x = false := by
        cases hq2 : q x
        · rfl
        · exact absurd (hx.mpr hq2) (by simp [hp])
      simp [List.filter_cons, hp, hq, ih hxs]
    · have hq : q x = true := hx.mp hp
      simp [List.filter_cons, hp, hq, ih hxs]

theorem length_filter_add_of_exclusive {α : Type} (l : List α) (p q : α → Bool)
    (h : ∀ x ∈ l, (p x = true ∧ q x = false) ∨ (p x = false ∧ q x = true)) :
    (l.filter p).length + (l.filter q).length = l.length := by
  induction l with
  | nil => rfl
  | cons x xs ih =>
    have hxs : ∀ y ∈ xs, (p y = true ∧ q y = false) ∨ (p y = false ∧ q y = true) :=
      fun y hy => h y (by simp [hy])
    rcases h x (by simp) with ⟨hp, hq⟩ | ⟨hp, hq⟩ <;>
      simp [List.filter_cons, hp, hq, ← ih hxs] <;> omega

/-- Membership in the time-window filter, characterized through the
spec-side window predicate. -/
theorem mem_match_time_filter {time : String} {events : List MatchEvent}
    {e : MatchEvent} :
    e ∈ match_time_filter time events ↔ e ∈ events ∧ specInWindow time e := by
  unfold match_time_filter specInWindow
  by_cases h1 : time = "first_half" <;> by_cases h2 : time = "second_half" <;>
    by_cases h3 : time = "overtime" <;> simp [h1, h2, h3, List.mem_filter]

/-- The time-window filter is the same as filtering by the spec-side window
predicate (for the default branch this is filtering by a true predicate). -/
theorem match_time_filter_eq_filter (time : String) (events : List MatchEvent) :
    match_time_filter time events = events.filter (fun e => specInWindow time e) := by
  unfold match_time_filter specInWindow
  by_cases h1 : time = "first_half" <;> by_cases h2 : time = "second_half" <;>
    by_cases h3 : time = "overtime" <;> simp [h1, h2, h3]

/-- A single-player event of minute `m`, used for concrete instances. -/
def evAtMinute (m : Nat) : MatchEvent :=
  { team := "T", player := some "P", minute := m, type := "Pass",
    pass_outcome := none, shot_outcome := none, dribble_outcome := none,
    shot_type := none }

/-- Event table of a player with events at minutes 10, 50 and 95. -/
def exMinutesEvents : List MatchEvent := [evAtMinute 10, evAtMinute 50, evAtMinute 95]

/-- C1: the time-window filter selects exactly the events with minute ≤ 45
for `first_half`, minute > 45 for `second_half` (so extra-time minutes are
also included), minute > 90 for `overtime`, and all events for
`whole_match`; in particular on events at minutes {10, 50, 95} the windows
capture {10}, {50, 95} and {95} respectively. -/
theorem claim_C1_time_window_filter (events : List MatchEvent) :
    (∀ e, e ∈ match_time_filter "first_half" events ↔ e ∈ events ∧ e.minute ≤ 45) ∧
    (∀ e, e ∈ match_time_filter "second_half" events ↔ e ∈ events ∧ 45 < e.minute) ∧
    (∀ e, e ∈ match_time_filter "overtime" events ↔ e ∈ events ∧ 90 < e.minute) ∧
    match_time_filter "whole_match" events = events ∧
    match_time_filter "first_half" exMinutesEvents = [evAtMinute 10] ∧
    match_time_filter "second_half" exMinutesEvents = [evAtMinute 50, evAtMinute 95] ∧
    match_time_filter "overtime" exMinutesEvents = [evAtMinute 95] := by
  refine ⟨?_, ?_, ?_, rfl, by decide, by decide, by decide⟩ <;>
    intro e <;> simp [match_time_filter, List.mem_filter]

theorem isEmpty_false_of_mem {α : Type} {l : List α} {x : α} (h : x ∈ l) :
    l.isEmpty = false := by
  cases l
  · cases h
  · rfl

/-- C5: for every event table, player and time window, the computed
`PlayerStats` satisfies `passes_completed ≤ passes_attempted`,
`shots_on_target ≤ shots` and `dribbles_successful ≤ dribbles_attempted`,
and every one of the ten fields is a non-negative integer. -/
theorem claim_C5_stat_invariants (events : List MatchEvent) (player_name time : String) :
    (get_single_player_stats events player_name time).passes_completed ≤
      (get_single_player_stats events player_name time).passes_attempted ∧
    (get_single_player_stats events player_name time).shots_on_target ≤
      (get_single_player_stats events player_name time).shots ∧
    (get_single_player_stats events player_name time).dribbles_successful ≤
      (get_single_player_stats events player_name time).dribbles_attempted ∧
    0 ≤ (get_single_player_stats events player_name time).passes_completed ∧
    0 ≤ (get_single_player_stats events player_name time).passes_attempted ∧
    0 ≤ (get_single_player_stats events player_name time).shots ∧
    0 ≤ (get_single_player_stats events player_name time).shots_on_target ∧
    0 ≤ (get_single_player_stats events player_name time).fouls_committed ∧
    0 ≤ (get_single_player_stats events player_name time).fouls_won ∧
    0 ≤ (get_single_player_stats events player_name time).tackles ∧
    0 ≤ (get_single_player_stats events player_name time).interceptions ∧
    0 ≤ (get_single_player_stats events player_name time).dribbles_successful ∧
    0 ≤ (get_single_player_stats events player_name time).dribbles_attempted := by
  refine ⟨?_, ?_, ?_, Nat.zero_le _, Nat.zero_le _, Nat.zero_le _, Nat.zero_le _,
    Nat.zero_le _, Nat.zero_le _, Nat.zero_le _, Nat.zero_le _, Nat.zero_le _,
    Nat.zero_le _⟩ <;>
  · simp only [get_single_player_stats]
    by_cases h1 : (match_time_filter time events).isEmpty = true
    · simp [h1, zeroPlayerStats]
    · by_cases h2 : ((match_time_filter time events).filter
          (fun e => e.player = some player_name)).isEmpty = true
      · simp [h1, h2, zeroPlayerStats]
      · simp only [h1, h2, if_false]
        apply filter_length_mono
        intro x _ hx
        simp only [decide_eq_true_eq] at hx ⊢
        exact hx.1

/-- C6: the single-player aggregator is total (it always returns a
well-formed `PlayerStats` record), and whenever the named player has no
event inside the chosen window — in particular when the table is empty, the
window is empty, or the player does not appear — every one of the ten
fields of the result is zero. -/
theorem claim_C6_defaults_to_zero (events : List MatchEvent) (player_name time : String)
    (h : ∀ e ∈ events, specInWindow time e → e.player ≠ some player_name) :
    get_single_player_stats events player_name time = zeroPlayerStats := by
  have hfil : (match_time_filter time events).filter
      (fun e => e.player = some player_name) = [] := by
    rw [List.filter_eq_nil_iff]
    intro e he
    rw [mem_match_time_filter] at he
    simp [h e he.1 he.2]
  simp only [get_single_player_stats]
  by_cases h1 : (match_time_filter time events).isEmpty = true
  · simp [h1]
  · simp [h1, hfil]

/-- Witness for C6 at a concrete input: a non-empty match whose events all
belong to player "P", queried for the absent player "Q". -/
theorem claim_C6_witness :
    get_single_player_stats exMinutesEvents "Q" "whole_match" = zeroPlayerStats :=
  claim_C6_defaults_to_zero exMinutesEvents "Q" "whole_match" (by decide)

/-- C10: any time selector other than the three named window strings
(including misspelled or arbitrary strings) applies no minute filter, so
the aggregator returns exactly the `whole_match` result. -/
theorem claim_C10_unknown_time_selector (events : List MatchEvent)
    (player_name time : String) (h1 : time ≠ "first_half")
    (h2 : time ≠ "second_half") (h3 : time ≠ "overtime") :
    get_single_player_stats events player_name time =
      get_single_player_stats events player_name "whole_match" := by
  have ht : match_time_filter time events = events := by
    simp [match_time_filter, h1, h2, h3]
  have hw : match_time_filter "whole_match" events = events := by
    simp [match_time_filter]
  simp only [get_single_player_stats, ht, hw]

/-- Witness for C10 at a concrete input: the misspelled selector
"halftime" behaves exactly like "whole_match". -/
theorem claim_C10_witness :
    get_single_player_stats exMinutesEvents "P" "halftime" =
      get_single_player_stats exMinutesEvents "P" "whole_match" :=
  claim_C10_unknown_time_selector exMinutesEvents "P" "halftime"
    (by decide) (by decide) (by decide)

/-- Collapsing the implementation's three filter stages (window, player,
per-field condition) into the single spec-side count. -/
theorem window_player_count_eq (events : List MatchEvent) (player_name time : String)
    (t : MatchEvent → Prop) [DecidablePred t] :
    (((match_time_filter time events).filter
        (fun e => e.player = some player_name)).filter (fun e => t e)).length =
      specWindowPlayerCount events player_name time t := by
  rw [match_time_filter_eq_filter, filter_comp_two, filter_comp_two]
  unfold specWindowPlayerCount
  apply length_filter_eq_of_iff
  intro x _
  simp only [Bool.and_eq_true, decide_eq_true_eq]

/-- Event table with exactly two Shot events for "Player A", one of which
has `shot_outcome = "On Target"`. -/
def exShotsEvents : List MatchEvent :=
  [ { team := "T", player := some "Player A", minute := 10, type := "Shot",
      pass_outcome := none, shot_outcome := some "On Target",
      dribble_outcome := none, shot_type := none },
    { team := "T", player := some "Player A", minute := 20, type := "Shot",
      pass_outcome := none, shot_outcome := some "Off T",
      dribble_outcome := none, shot_type := none } ]

/-- C2: whenever the named player has at least one event in the chosen
window, every field of the result is computed by the per-field counting
rule (count of the player's in-window events of the given type, refined by
the outcome condition where one applies: a `Pass` with no recorded
`pass_outcome` counts as completed, a `Shot` with `shot_outcome`
"On Target" counts as on target, a `Dribble` with `dribble_outcome`
"Complete" counts as successful). -/
theorem claim_C2_per_field_counting (events : List MatchEvent)
    (player_name time : String)
    (h : ∃ e ∈ events, specInWindow time e ∧ e.player = some player_name) :
    (get_single_player_stats events player_name time).passes_attempted =
      specWindowPlayerCount events player_name time (fun e => e.type = "Pass") ∧
    (get_single_player_stats events player_name time).passes_completed =
      specWindowPlayerCount events player_name time
        (fun e => e.type = "Pass" ∧ e.pass_outcome = none) ∧
    (get_single_player_stats events player_name time).shots =
      specWindowPlayerCount events player_name time (fun e => e.type = "Shot") ∧
    (get_single_player_stats events player_name time).shots_on_target =
      specWindowPlayerCount events player_name time
        (fun e => e.type = "Shot" ∧ e.shot_outcome = some "On Target") ∧
    (get_single_player_stats events player_name time).dribbles_attempted =
      specWindowPlayerCount events player_name time (fun e => e.type = "Dribble") ∧
    (get_single_player_stats events player_name time).dribbles_successful =
      specWindowPlayerCount events player_name time
        (fun e => e.type = "Dribble" ∧ e.dribble_outcome = some "Complete") ∧
    (get_single_player_stats events player_name time).fouls_committed =
      specWindowPlayerCount events player_name time
        (fun e => e.type = "Foul Committed") ∧
    (get_single_player_stats events player_name time).fouls_won =
      specWindowPlayerCount events player_name time (fun e => e.type = "Foul Won") ∧
    (get_single_player_stats events player_name time).tackles =
      specWindowPlayerCount events player_name time (fun e => e.type = "Tackle") ∧
    (get_single_player_stats events player_name time).interceptions =
      specWindowPlayerCount events player_name time
        (fun e => e.type = "Interception") := by
  obtain ⟨e, he, hw, hp⟩ := h
  have hmem : e ∈ (match_time_filter time events).filter
      (fun e => e.player = some player_name) := by
    rw [List.mem_filter, mem_match_time_filter]
    exact ⟨⟨he, hw⟩, by simp [hp]⟩
  have h2 : ((match_time_filter time events).filter
      (fun e => e.player = some player_name)).isEmpty = false :=
    isEmpty_false_of_mem hmem
  have h1 : (match_time_filter time events).isEmpty = false :=
    isEmpty_false_of_mem (List.mem_of_mem_filter hmem)
  simp only [get_single_player_stats, h1, h2, Bool.false_eq_true, if_false]
  exact ⟨window_player_count_eq events player_name time _,
    window_player_count_eq events player_name time _,
    window_player_count_eq events player_name time _,
    window_player_count_eq events player_name time _,
    window_player_count_eq events player_name time _,
    window_player_count_eq events player_name time _,
    window_player_count_eq events player_name time _,
    window_player_count_eq events player_name time _,
    window_player_count_eq events player_name time _,
    window_player_count_eq events player_name time _⟩

/-- Witness for C2 at the spec's concrete scenario: two Shot events for
"Player A", one with `shot_outcome = "On Target"`, giving `shots = 2` and
`shots_on_target = 1`. -/
theorem claim_C2_witness :
    (get_single_player_stats exShotsEvents "Player A" "whole_match").shots = 2 ∧
    (get_single_player_stats exShotsEvents "Player A" "whole_match").shots_on_target = 1 ∧
    (get_single_player_stats exShotsEvents "Player A" "whole_match").shots =
      specWindowPlayerCount exShotsEvents "Player A" "whole_match"
        (fun e => e.type = "Shot") :=
  ⟨by decide, by decide,
    (claim_C2_per_field_counting exShotsEvents "Player A" "whole_match"
      (by decide)).2.2.1⟩

/-! Embedding of the score reconstructor (`src/stats/matches.py` lines
177-271): `get_goals_df` and `get_match_score_details`.  The two team names
of the match, which the code fetches from the match record through
`get_teams`, are passed in as parameters `home` and `away`. -/

/-- Rendering of a possibly-missing (NaN) cell inside a Python f-string:
a present value prints itself, a NaN prints "nan". -/
def pyDisplay : Option String → String
  | some s => s
  | none => "nan"

/-- One row of the goals DataFrame produced by `get_goals_df`: the columns
the score reconstruction reads (`team`, `player`, `minute`, `shot_type`). -/
structure GoalRow where
  team : String
  player : Option String
  minute : Nat
  shot_type : Option String
deriving Repr, DecidableEq

/-- Embedding of `get_goals_df` (`src/stats/matches.py` lines 177-193):
events whose `shot_outcome` is "Goal", followed by the events of type
"Own Goal Against" restricted to `team`/`player`/`minute` with `shot_type`
set to "Own Goal"; then the optional `shot_type` and `team` filters. -/
def get_goals_df (events : List MatchEvent)
    (team : String := "") (shot_type : String := "") : List GoalRow :=
  let goals := (events.filter (fun e => e.shot_outcome = some "Goal")).map
    (fun e => { team := e.team, player := e.player, minute := e.minute,
                shot_type := e.shot_type : GoalRow })
  let own_goals := (events.filter (fun e => e.type = "Own Goal Against")).map
    (fun e => { team := e.team, player := e.player, minute := e.minute,
                shot_type := some "Own Goal" : GoalRow })
  let goals := goals ++ own_goals
  let goals := if shot_type ≠ "" then
      goals.filter (fun g => g.shot_type = some shot_type) else goals
  let goals := if team ≠ "" then goals.filter (fun g => g.team = team) else goals
  goals

/-- The own-goal rows of the goals DataFrame with the literal suffix
" [OG]" appended to the player name (`src/stats/matches.py` lines 204,
208). -/
def score_own_goals (events : List MatchEvent) : List GoalRow :=
  ((get_goals_df events).filter (fun g => g.shot_type = some "Own Goal")).map
    (fun g => { g with player := some (pyDisplay g.player ++ " [OG]") })

/-- The goals DataFrame with the own-goal rows removed
(`src/stats/matches.py` line 205). -/
def score_non_own_goals (events : List MatchEvent) : List GoalRow :=
  (get_goals_df events).filter (fun g => ¬ g.shot_type = some "Own Goal")

/-- The home side's goal list (`src/stats/matches.py` lines 211, 215-218):
the home team's non-own goals followed by the away team's own goals, with
the `team` column then overwritten with the home team name. -/
def home_team_player_goals (events : List MatchEvent) (home away : String) :
    List GoalRow :=
  ((score_non_own_goals events).filter (fun g => g.team = home) ++
   (score_own_goals events).filter (fun g => g.team = away)).map
    (fun g => { g with team := home })

/-- The away side's goal list (`src/stats/matches.py` lines 212, 219-222). -/
def alway_team_player_goals (events : List MatchEvent) (home away : String) :
    List GoalRow :=
  ((score_non_own_goals events).filter (fun g => g.team = away) ++
   (score_own_goals events).filter (fun g => g.team = home)).map
    (fun g => { g with team := away })

/-- Both sides' goal lists concatenated (`src/stats/matches.py` line 223). -/
def score_all_goals (events : List MatchEvent) (home away : String) : List GoalRow :=
  home_team_player_goals events home away ++ alway_team_player_goals events home away

/-- Goals counted as penalty-shootout goals: minute ≥ 120
(`src/stats/matches.py` line 226). -/
def penalty_goals (events : List MatchEvent) (home away : String) : List GoalRow :=
  (score_all_goals events home away).filter (fun g => 120 ≤ g.minute)

/-- Goals counted as open-play goals: minute < 120
(`src/stats/matches.py` line 227). -/
def open_play_goals (events : List MatchEvent) (home away : String) : List GoalRow :=
  (score_all_goals events home away).filter (fun g => g.minute < 120)

/-- The Python slice `s[:-2]`: the string with its last two characters
removed. -/
def pySliceDropLast2 (s : String) : String := String.mk s.data.dropLast.dropLast

/-- One scorer entry as rendered by the loop body, without the trailing
separator: `"Name (minute')"`. -/
def goalEntry (r : GoalRow) : String :=
  pyDisplay r.player ++ " (" ++ toString r.minute ++ "')"

/-- The scorer-list string of one side (`src/stats/matches.py` lines
229-237): append `"Name (minute')," ` per row, then slice off the trailing
separator with `[:-2]`. -/
def player_goals_text (rows : List GoalRow) : String :=
  pySliceDropLast2 (rows.foldl (fun acc r => acc ++ (goalEntry r ++ ", ")) "")

/-- The record returned by `get_match_score_details`
(`src/stats/matches.py` lines 262-271), with the source's field names. -/
structure ScoreDetails where
  home_team_name : String
  home_team_open_play : Nat
  home_team_penalty : Nat
  home_team_player_goals : String
  alway_team_name : String
  alway_team_open_play : Nat
  alway_team_penalty : Nat
  alway_team_player_goals : String
deriving Repr, DecidableEq

/-- Embedding of `get_match_score_details` (`src/stats/matches.py` lines
196-271).  The `groupby("team").size()` lookup with the `in` guard is the
count of rows carrying the team name (zero when the team is absent); the
`len(teams) == 2` guard is always true for the two-element team tuple. -/
def get_match_score_details (events : List MatchEvent) (home away : String) :
    ScoreDetails :=
  { home_team_name := home
    home_team_open_play :=
      ((open_play_goals events home away).filter (fun g => g.team = home)).length
    home_team_penalty :=
      ((penalty_goals events home away).filter (fun g => g.team = home)).length
    home_team_player_goals :=
      player_goals_text (home_team_player_goals events home away)
    alway_team_name := away
    alway_team_open_play :=
      ((open_play_goals events home away).filter (fun g => g.team = away)).length
    alway_team_penalty :=
      ((penalty_goals events home away).filter (fun g => g.team = away)).length
    alway_team_player_goals :=
      player_goals_text (alway_team_player_goals events home away) }

/-- With both optional filters at their defaults, `get_goals_df` is the
concatenation of the "Goal"-outcome rows and the own-goal rows. -/
theorem get_goals_df_default (events : List MatchEvent) :
    get_goals_df events =
      (events.filter (fun e => e.shot_outcome = some "Goal")).map
        (fun e => { team := e.team, player := e.player, minute := e.minute,
                    shot_type := e.shot_type : GoalRow }) ++
      (events.filter (fun e => e.type = "Own Goal Against")).map
        (fun e => { team := e.team, player := e.player, minute := e.minute,
                    shot_type := some "Own Goal" : GoalRow }) := by
  unfold get_goals_df
  simp

/-- Every row of the goals DataFrame carries the team of one of the
goal-scoring events of the table. -/
theorem mem_get_goals_df (events : List MatchEvent) {g : GoalRow}
    (hg : g ∈ get_goals_df events) :
    ∃ e ∈ events, e.team = g.team ∧
      (e.shot_outcome = some "Goal" ∨ e.type = "Own Goal Against") := by
  rw [get_goals_df_default] at hg
  rcases List.mem_append.mp hg with h | h <;> obtain ⟨e, he, rfl⟩ := List.mem_map.mp h
  · have hf := List.mem_filter.mp he
    exact ⟨e, hf.1, rfl, Or.inl (by simpa using hf.2)⟩
  · have hf := List.mem_filter.mp he
    exact ⟨e, hf.1, rfl, Or.inr (by simpa using hf.2)⟩

theorem mem_home_goals_team (events : List MatchEvent) (home away : String) :
    ∀ g ∈ home_team_player_goals events home away, g.team = home := by
  intro g hg
  obtain ⟨g0, _, rfl⟩ := List.mem_map.mp hg
  rfl

theorem mem_alway_goals_team (events : List MatchEvent) (home away : String) :
    ∀ g ∈ alway_team_player_goals events home away, g.team = away := by
  intro g hg
  obtain ⟨g0, _, rfl⟩ := List.mem_map.mp hg
  rfl

/-- Open-play count plus penalty count of one side is the length of that
side's goal list. -/
theorem side_open_penalty_sum (events : List MatchEvent) (home away : String)
    (hne : home ≠ away) :
    ((open_play_goals events home away).filter (fun g => g.team = home)).length +
        ((penalty_goals events home away).filter (fun g => g.team = home)).length =
        (home_team_player_goals events home away).length ∧
    ((open_play_goals events home away).filter (fun g => g.team = away)).length +
        ((penalty_goals events home away).filter (fun g => g.team = away)).length =
        (alway_team_player_goals events home away).length := by
  have hsplit : ∀ (m : GoalRow → Bool) (t : String),
      (∀ g ∈ home_team_player_goals events home away, g.team = home) →
      True → ((score_all_goals events home away).filter m).filter
        (fun g => g.team = t) =
        ((home_team_player_goals events home away).filter m).filter
          (fun g => g.team = t) ++
        ((alway_team_player_goals events home away).filter m).filter
          (fun g => g.team = t) := by
    intro m t _ _
    unfold score_all_goals
    rw [List.filter_append, List.filter_append]
  constructor
  · unfold open_play_goals penalty_goals
    rw [hsplit _ home (mem_home_goals_team events home away) trivial,
        hsplit _ home (mem_home_goals_team events home away) trivial]
    have hA : ∀ m : GoalRow → Bool,
        ((alway_team_player_goals events home away).filter m).filter
          (fun g => g.team = home) = [] := by
      intro m
      apply List.filter_eq_nil_iff.mpr
      intro g hg
      have := mem_alway_goals_team events home away g (List.mem_of_mem_filter hg)
      simp only [this, decide_eq_true_eq]
      exact fun h => hne h.symm
    have hH : ∀ m : GoalRow → Bool,
        ((home_team_player_goals events home away).filter m).filter
          (fun g => g.team = home) =
          (home_team_player_goals events home away).filter m := by
      intro m
      apply List.filter_eq_self.mpr
      intro g hg
      have := mem_home_goals_team events home away g (List.mem_of_mem_filter hg)
      simp [this]
    rw [hA, hA, hH, hH, List.length_append, List.length_append, List.length_nil]
    have := length_filter_add_of_exclusive (home_team_player_goals events home away)
      (fun g => g.minute < 120) (fun g => 120 ≤ g.minute) (by
        intro x _
        simp only [decide_eq_true_eq, decide_eq_false_iff_not]
        omega)
    omega
  · unfold open_play_goals penalty_goals
    rw [hsplit _ away (mem_home_goals_team events home away) trivial,
        hsplit _ away (mem_home_goals_team events home away) trivial]
    have hA : ∀ m : GoalRow → Bool,
        ((home_team_player_goals events home away).filter m).filter
          (fun g => g.team = away) = [] := by
      intro m
      apply List.filter_eq_nil_iff.mpr
      intro g hg
      have := mem_home_goals_team events home away g (List.mem_of_mem_filter hg)
      simp [this, hne]
    have hH : ∀ m : GoalRow → Bool,
        ((alway_team_player_goals events home away).filter m).filter
          (fun g => g.team = away) =
          (alway_team_player_goals events home away).filter m := by
      intro m
      apply List.filter_eq_self.mpr
      intro g hg
      have := mem_alway_goals_team events home away g (List.mem_of_mem_filter hg)
      simp [this]
    rw [hA, hA, hH, hH, List.length_append, List.length_append, List.length_nil]
    have := length_filter_add_of_exclusive (alway_team_player_goals events home away)
      (fun g => g.minute < 120) (fun g => 120 ≤ g.minute) (by
        intro x _
        simp only [decide_eq_true_eq, decide_eq_false_iff_not]
        omega)
    omega

theorem team_partition_length {l : List GoalRow} {home away : String}
    (hne : home ≠ away) (h : ∀ g ∈ l, g.team = home ∨ g.team = away) :
    (l.filter (fun g => g.team = home)).length +
      (l.filter (fun g => g.team = away)).length = l.length := by
  apply length_filter_add_of_exclusive
  intro x hx
  rcases h x hx with hx1 | hx1
  · refine Or.inl ⟨by simp [hx1], ?_⟩
    simp only [hx1, decide_eq_false_iff_not]
    exact hne
  · refine Or.inr ⟨?_, by simp [hx1]⟩
    simp only [hx1, decide_eq_false_iff_not]
    exact fun hh => hne hh.symm

theorem goals_own_partition (events : List MatchEvent) :
    (score_non_own_goals events).length + (score_own_goals events).length =
      (get_goals_df events).length := by
  unfold score_non_own_goals score_own_goals
  rw [List.length_map]
  apply length_filter_add_of_exclusive
  intro x _
  by_cases h : x.shot_type = some "Own Goal"
  · right
    simp [h]
  · left
    simp [h]

theorem get_goals_df_length (events : List MatchEvent) :
    (get_goals_df events).length =
      (events.filter (fun e => e.shot_outcome = some "Goal")).length +
      (events.filter (fun e => e.type = "Own Goal Against")).length := by
  rw [get_goals_df_default, List.length_append, List.length_map, List.length_map]

theorem score_non_own_goals_team (events : List MatchEvent) (home away : String)
    (hteam : ∀ e ∈ events,
      (e.shot_outcome = some "Goal" ∨ e.type = "Own Goal Against") →
        e.team = home ∨ e.team = away) :
    ∀ g ∈ score_non_own_goals events, g.team = home ∨ g.team = away := by
  intro g hg
  obtain ⟨e, he, hteq, hcase⟩ := mem_get_goals_df events (List.mem_of_mem_filter hg)
  rw [← hteq]
  exact hteam e he hcase

theorem score_own_goals_team (events : List MatchEvent) (home away : String)
    (hteam : ∀ e ∈ events,
      (e.shot_outcome = some "Goal" ∨ e.type = "Own Goal Against") →
        e.team = home ∨ e.team = away) :
    ∀ g ∈ score_own_goals events, g.team = home ∨ g.team = away := by
  intro g hg
  unfold score_own_goals at hg
  obtain ⟨g0, hg0, rfl⟩ := List.mem_map.mp hg
  obtain ⟨e, he, hteq, hcase⟩ := mem_get_goals_df events (List.mem_of_mem_filter hg0)
  rw [show ({ g0 with player := some (pyDisplay g0.player ++ " [OG]") } : GoalRow).team
      = g0.team from rfl, ← hteq]
  exact hteam e he hcase

theorem home_goals_length (events : List MatchEvent) (home away : String) :
    (home_team_player_goals events home away).length =
      ((score_non_own_goals events).filter (fun g => g.team = home)).length +
      ((score_own_goals events).filter (fun g => g.team = away)).length := by
  unfold home_team_player_goals
  rw [List.length_map, List.length_append]

theorem alway_goals_length (events : List MatchEvent) (home away : String) :
    (alway_team_player_goals events home away).length =
      ((score_non_own_goals events).filter (fun g => g.team = away)).length +
      ((score_own_goals events).filter (fun g => g.team = home)).length := by
  unfold alway_team_player_goals
  rw [List.length_map, List.length_append]

/-- C3: for a match whose goal-scoring events all carry one of the two
(distinct) team names, the four goal counts of the score summary sum to
the total number of goal-scoring events: count of events with
`shot_outcome = "Goal"` plus count of events of type "Own Goal Against";
no goal is counted twice and none is dropped between the two tallies. -/
theorem claim_C3_goal_sum (events : List MatchEvent) (home away : String)
    (hne : home ≠ away)
    (hteam : ∀ e ∈ events,
      (e.shot_outcome = some "Goal" ∨ e.type = "Own Goal Against") →
        e.team = home ∨ e.team = away) :
    (get_match_score_details events home away).home_team_open_play +
      (get_match_score_details events home away).home_team_penalty +
      (get_match_score_details events home away).alway_team_open_play +
      (get_match_score_details events home away).alway_team_penalty =
      (events.filter (fun e => e.shot_outcome = some "Goal")).length +
      (events.filter (fun e => e.type = "Own Goal Against")).length := by
  obtain ⟨hH, hA⟩ := side_open_penalty_sum events home away hne
  have h1 := home_goals_length events home away
  have h2 := alway_goals_length events home away
  have h3 := team_partition_length hne (score_non_own_goals_team events home away hteam)
  have h4 := team_partition_length hne (score_own_goals_team events home away hteam)
  have h5 := goals_own_partition events
  have h6 := get_goals_df_length events
  simp only [get_match_score_details]
  omega

/-- Concrete match for the score-reconstruction witnesses: an open-play
goal for "H" at minute 80, an own goal conceded by "A" at minute 5 (thus
credited to "H"), and a shootout goal for "A" at minute 121. -/
def exScoreEvents : List MatchEvent :=
  [ { team := "A", player := some "Bob", minute := 5, type := "Own Goal Against",
      pass_outcome := none, shot_outcome := none, dribble_outcome := none,
      shot_type := none },
    { team := "H", player := some "Ann", minute := 80, type := "Shot",
      pass_outcome := none, shot_outcome := some "Goal", dribble_outcome := none,
      shot_type := some "Open Play" },
    { team := "A", player := some "Cyd", minute := 121, type := "Shot",
      pass_outcome := none, shot_outcome := some "Goal", dribble_outcome := none,
      shot_type := some "Penalty" } ]

/-- Witness for C3 at the concrete match: 2 + 0 + 0 + 1 goals on the left,
2 + 1 goal-scoring events on the right. -/
theorem claim_C3_witness :
    (get_match_score_details exScoreEvents "H" "A").home_team_open_play +
      (get_match_score_details exScoreEvents "H" "A").home_team_penalty +
      (get_match_score_details exScoreEvents "H" "A").alway_team_open_play +
      (get_match_score_details exScoreEvents "H" "A").alway_team_penalty =
      (exScoreEvents.filter (fun e => e.shot_outcome = some "Goal")).length +
      (exScoreEvents.filter (fun e => e.type = "Own Goal Against")).length :=
  claim_C3_goal_sum exScoreEvents "H" "A" (by decide) (by decide)

/-- Comma-separated join with no trailing separator: the spec's description
of a rendered scorer list. -/
def commaSeparated : List String → String
  | [] => ""
  | [x] => x
  | x :: xs => x ++ ", " ++ commaSeparated xs

/-- A string `s` contains `sub` as a substring. -/
def strContains (s sub : String) : Prop := ∃ a b, s = a ++ (sub ++ b)

theorem pySlice_append_sep (s : String) : pySliceDropLast2 (s ++ ", ") = s := by
  apply String.ext
  show (s ++ ", ").data.dropLast.dropLast = s.data
  rw [String.data_append]
  rw [show (", " : String).data = [',', ' '] from rfl,
    show s.data ++ [',', ' '] = (s.data ++ [',']) ++ [' '] by simp,
    List.dropLast_concat, List.dropLast_concat]

theorem goals_fold_shift (rows : List GoalRow) (acc : String) :
    rows.foldl (fun a r => a ++ (goalEntry r ++ ", ")) acc =
      acc ++ rows.foldl (fun a r => a ++ (goalEntry r ++ ", ")) "" := by
  induction rows generalizing acc with
  | nil => simp [List.foldl]
  | cons r rs ih =>
    rw [List.foldl_cons, List.foldl_cons, ih, ih ("" ++ (goalEntry r ++ ", ")),
      String.empty_append, String.append_assoc]

theorem goals_fold_eq_commaSeparated (rows : List GoalRow) (h : rows ≠ []) :
    rows.foldl (fun a r => a ++ (goalEntry r ++ ", ")) "" =
      commaSeparated (rows.map goalEntry) ++ ", " := by
  induction rows with
  | nil => exact absurd rfl h
  | cons r rs ih =>
    cases rs with
    | nil => simp [List.foldl, commaSeparated, String.empty_append]
    | cons r2 rs2 =>
      rw [List.foldl_cons, goals_fold_shift, ih (by simp), String.empty_append,
        List.map_cons, List.map_cons, List.map_cons]
      rw [show commaSeparated (goalEntry r :: goalEntry r2 :: List.map goalEntry rs2)
          = goalEntry r ++ ", " ++ commaSeparated (goalEntry r2 :: List.map goalEntry rs2)
          from rfl]
      simp [String.append_assoc]

/-- The loop-and-slice rendering equals a comma-separated join of the
per-row entries, in row order. -/
theorem player_goals_text_eq (rows : List GoalRow) :
    player_goals_text rows = commaSeparated (rows.map goalEntry) := by
  cases rows with
  | nil => rfl
  | cons r rs =>
    unfold player_goals_text
    rw [goals_fold_eq_commaSeparated _ (by simp), pySlice_append_sep]

def insertByMinute (r : GoalRow) : List GoalRow → List GoalRow
  | [] => [r]
  | x :: xs => if r.minute ≤ x.minute then r :: x :: xs else x :: insertByMinute r xs

def sortByMinute : List GoalRow → List GoalRow
  | [] => []
  | x :: xs => insertByMinute x (sortByMinute xs)

/-- The rendering the claim describes: comma-separated entries in
chronological (ascending-minute) order. -/
def specChronologicalText (rows : List GoalRow) : String :=
  commaSeparated ((sortByMinute rows).map goalEntry)

/-- Counterexample to C8 as stated: in the concrete match `exScoreEvents`
the home scorer string produced by the code lists the minute-80 goal
before the minute-5 own goal (own-goal rows are appended after the
regular goals, regardless of minute), so it is not in ascending-minute
order. -/
theorem claim_C8_counterexample :
    (get_match_score_details exScoreEvents "H" "A").home_team_player_goals =
      "Ann (80'), Bob [OG] (5')" ∧
    specChronologicalText (home_team_player_goals exScoreEvents "H" "A") =
      "Bob [OG] (5'), Ann (80')" ∧
    ¬ (get_match_score_details exScoreEvents "H" "A").home_team_player_goals =
      specChronologicalText (home_team_player_goals exScoreEvents "H" "A") := by
  refine ⟨by decide, by decide, by decide⟩

/-- C8 amended: each team's scorer list is rendered as a comma-separated
string of "Name (minute')" entries with the trailing separator trimmed,
in goal-table order — the team's regular goals in event-table order
followed by the own goals credited from the opponent — not necessarily
in ascending-minute order; a team with no goals renders as the empty
string. -/
theorem claim_C8_amended_rendering (events : List MatchEvent) (home away : String) :
    (get_match_score_details events home away).home_team_player_goals =
      commaSeparated ((home_team_player_goals events home away).map goalEntry) ∧
    (get_match_score_details events home away).alway_team_player_goals =
      commaSeparated ((alway_team_player_goals events home away).map goalEntry) ∧
    (home_team_player_goals events home away = [] →
      (get_match_score_details events home away).home_team_player_goals = "") ∧
    (alway_team_player_goals events home away = [] →
      (get_match_score_details events home away).alway_team_player_goals = "") := by
  refine ⟨player_goals_text_eq _, player_goals_text_eq _, ?_, ?_⟩ <;> intro h <;>
    simp only [get_match_score_details] <;> rw [h] <;> rfl

/-- Witness for the amended C8: the non-empty home list of the concrete
match renders as the joined entries, and a match with no events renders
both sides as the empty string. -/
theorem claim_C8_witness :
    (get_match_score_details exScoreEvents "H" "A").home_team_player_goals =
      commaSeparated ((home_team_player_goals exScoreEvents "H" "A").map goalEntry) ∧
    (get_match_score_details [] "H" "A").home_team_player_goals = "" :=
  ⟨(claim_C8_amended_rendering exScoreEvents "H" "A").1,
   (claim_C8_amended_rendering [] "H" "A").2.2.1 (by decide)⟩

/-- Appending an "Own Goal Against" event (that is not also a
"Goal"-outcome shot) to the event table appends exactly one row to the
goals DataFrame. -/
theorem get_goals_df_snoc_own_goal (events : List MatchEvent) (og : MatchEvent)
    (htype : og.type = "Own Goal Against") (hng : ¬ og.shot_outcome = some "Goal") :
    get_goals_df (events ++ [og]) =
      get_goals_df events ++
        [{ team := og.team, player := og.player, minute := og.minute,
           shot_type := some "Own Goal" }] := by
  rw [get_goals_df_default, get_goals_df_default]
  rw [List.filter_append, List.filter_append, List.map_append, List.map_append]
  simp [List.filter_cons, htype, hng, List.append_assoc]

/-- The same appending, seen on the own-goal and non-own-goal lists. -/
theorem score_lists_snoc_own_goal (events : List MatchEvent) (og : MatchEvent)
    (htype : og.type = "Own Goal Against") (hng : ¬ og.shot_outcome = some "Goal") :
    score_own_goals (events ++ [og]) =
      score_own_goals events ++
        [{ team := og.team, player := some (pyDisplay og.player ++ " [OG]"),
           minute := og.minute, shot_type := some "Own Goal" }] ∧
    score_non_own_goals (events ++ [og]) = score_non_own_goals events := by
  have hdf := get_goals_df_snoc_own_goal events og htype hng
  constructor
  · unfold score_own_goals
    rw [hdf, List.filter_append, List.map_append]
    simp [List.filter_cons]
  · unfold score_non_own_goals
    rw [hdf, List.filter_append]
    simp [List.filter_cons]

/-- An own goal conceded by the away team appends one row (with the home
team name and the "[OG]"-suffixed player) to the home side's goal list and
leaves the away side's list unchanged. -/
theorem home_side_snoc (events : List MatchEvent) (home away : String)
    (hne : home ≠ away) (og : MatchEvent) (hteam2 : og.team = away)
    (htype : og.type = "Own Goal Against") (hng : ¬ og.shot_outcome = some "Goal") :
    home_team_player_goals (events ++ [og]) home away =
      home_team_player_goals events home away ++
        [{ team := home, player := some (pyDisplay og.player ++ " [OG]"),
           minute := og.minute, shot_type := some "Own Goal" }] ∧
    alway_team_player_goals (events ++ [og]) home away =
      alway_team_player_goals events home away := by
  obtain ⟨hOG, hnOG⟩ := score_lists_snoc_own_goal events og htype hng
  constructor
  · unfold home_team_player_goals
    rw [hnOG, hOG, List.filter_append, ← List.append_assoc, List.map_append]
    simp [List.filter_cons, hteam2]
  · unfold alway_team_player_goals
    rw [hnOG, hOG, List.filter_append]
    have hnil : List.filter (fun g => g.team = home)
        [({ team := og.team, player := some (pyDisplay og.player ++ " [OG]"),
            minute := og.minute, shot_type := some "Own Goal" } : GoalRow)] = [] := by
      simp only [List.filter_cons, List.filter_nil, hteam2, decide_eq_true_eq]
      rw [if_neg (by exact fun h => hne h.symm)]
    rw [hnil, List.append_nil]

/-- An own goal conceded by the home team appends one row to the away
side's goal list and leaves the home side's list unchanged. -/
theorem alway_side_snoc (events : List MatchEvent) (home away : String)
    (hne : home ≠ away) (og : MatchEvent) (hteam2 : og.team = home)
    (htype : og.type = "Own Goal Against") (hng : ¬ og.shot_outcome = some "Goal") :
    alway_team_player_goals (events ++ [og]) home away =
      alway_team_player_goals events home away ++
        [{ team := away, player := some (pyDisplay og.player ++ " [OG]"),
           minute := og.minute, shot_type := some "Own Goal" }] ∧
    home_team_player_goals (events ++ [og]) home away =
      home_team_player_goals events home away := by
  obtain ⟨hOG, hnOG⟩ := score_lists_snoc_own_goal events og htype hng
  constructor
  · unfold alway_team_player_goals
    rw [hnOG, hOG, List.filter_append, ← List.append_assoc, List.map_append]
    simp [List.filter_cons, hteam2]
  · unfold home_team_player_goals
    rw [hnOG, hOG, List.filter_append]
    have hnil : List.filter (fun g => g.team = away)
        [({ team := og.team, player := some (pyDisplay og.player ++ " [OG]"),
            minute := og.minute, shot_type := some "Own Goal" } : GoalRow)] = [] := by
      simp only [List.filter_cons, List.filter_nil, hteam2, decide_eq_true_eq]
      rw [if_neg hne]
    rw [hnil, List.append_nil]

/-- The per-side minute-filtered counts of the concatenated goal list are
the minute-filtered counts of each side's own list. -/
theorem side_count_eq (events : List MatchEvent) (home away : String)
    (hne : home ≠ away) (m : GoalRow → Bool) :
    ((score_all_goals events home away).filter m).filter (fun g => g.team = home) =
      (home_team_player_goals events home away).filter m ∧
    ((score_all_goals events home away).filter m).filter (fun g => g.team = away) =
      (alway_team_player_goals events home away).filter m := by
  unfold score_all_goals
  constructor
  · rw [List.filter_append, List.filter_append]
    have h1 : ((home_team_player_goals events home away).filter m).filter
        (fun g => g.team = home) = (home_team_player_goals events home away).filter m :=
      List.filter_eq_self.mpr (by
        intro g hg
        simp [mem_home_goals_team events home away g (List.mem_of_mem_filter hg)])
    have h2 : ((alway_team_player_goals events home away).filter m).filter
        (fun g => g.team = home) = [] :=
      List.filter_eq_nil_iff.mpr (by
        intro g hg
        have := mem_alway_goals_team events home away g (List.mem_of_mem_filter hg)
        simp only [this, decide_eq_true_eq]
        exact fun h => hne h.symm)
    rw [h1, h2, List.append_nil]
  · rw [List.filter_append, List.filter_append]
    have h1 : ((alway_team_player_goals events home away).filter m).filter
        (fun g => g.team = away) = (alway_team_player_goals events home away).filter m :=
      List.filter_eq_self.mpr (by
        intro g hg
        simp [mem_alway_goals_team events home away g (List.mem_of_mem_filter hg)])
    have h2 : ((home_team_player_goals events home away).filter m).filter
        (fun g => g.team = away) = [] :=
      List.filter_eq_nil_iff.mpr (by
        intro g hg
        have := mem_home_goals_team events home away g (List.mem_of_mem_filter hg)
        simp only [this, decide_eq_true_eq]
        exact hne)
    rw [h1, h2, List.nil_append]

theorem commaSeparated_snoc_exists (l : List String) (x : String) :
    ∃ a, commaSeparated (l ++ [x]) = a ++ x := by
  induction l with
  | nil => exact ⟨"", (String.empty_append x).symm⟩
  | cons y ys ih =>
    obtain ⟨a, ha⟩ := ih
    cases ys with
    | nil => exact ⟨y ++ ", ", rfl⟩
    | cons z zs =>
      refine ⟨(y ++ ", ") ++ a, ?_⟩
      show commaSeparated (y :: z :: (zs ++ [x])) = _
      rw [show commaSeparated (y :: z :: (zs ++ [x]))
          = y ++ ", " ++ commaSeparated (z :: (zs ++ [x])) from rfl]
      rw [show (z :: zs) ++ [x] = z :: (zs ++ [x]) from rfl] at ha
      rw [ha, ← String.append_assoc]

/-- The rendered text of a goal list ending in a row whose player cell is
the string `s` contains `s` as a substring. -/
theorem strContains_text_snoc (rows : List GoalRow) (r : GoalRow) (s : String)
    (hp : r.player = some s) :
    strContains (player_goals_text (rows ++ [r])) s := by
  rw [player_goals_text_eq, List.map_append]
  obtain ⟨a, ha⟩ := commaSeparated_snoc_exists (rows.map goalEntry) (goalEntry r)
  refine ⟨a, " (" ++ (toString r.minute ++ "')"), ?_⟩
  rw [show List.map goalEntry [r] = [goalEntry r] from rfl, ha]
  congr 1
  rw [goalEntry, hp]
  show pyDisplay (some s) ++ " (" ++ toString r.minute ++ "')"
      = s ++ (" (" ++ (toString r.minute ++ "')"))
  simp [pyDisplay, String.append_assoc]

/-- Each of the four goal counts of the score summary is the
minute-filtered length of the corresponding side's goal list. -/
theorem score_counts_via_sides (events : List MatchEvent) (home away : String)
    (hne : home ≠ away) :
    (get_match_score_details events home away).home_team_open_play =
      ((home_team_player_goals events home away).filter (fun g => g.minute < 120)).length ∧
    (get_match_score_details events home away).home_team_penalty =
      ((home_team_player_goals events home away).filter (fun g => 120 ≤ g.minute)).length ∧
    (get_match_score_details events home away).alway_team_open_play =
      ((alway_team_player_goals events home away).filter (fun g => g.minute < 120)).length ∧
    (get_match_score_details events home away).alway_team_penalty =
      ((alway_team_player_goals events home away).filter (fun g => 120 ≤ g.minute)).length := by
  refine ⟨?_, ?_, ?_, ?_⟩ <;>
    simp only [get_match_score_details, open_play_goals, penalty_goals] <;>
    first
      | rw [(side_count_eq events home away hne _).1]
      | rw [(side_count_eq events home away hne _).2]

/-- C4: appending an "Own Goal Against" event recorded against one team
adds exactly one goal (open-play if its minute is below 120, penalty
otherwise) to the opposing team's tally, leaves the conceding team's
counts unchanged, and makes the opposing team's rendered scorer string
contain the scoring player's display name with the literal suffix
" [OG]". -/
theorem claim_C4_own_goal_credit (events : List MatchEvent) (home away : String)
    (hne : home ≠ away) (og : MatchEvent)
    (htype : og.type = "Own Goal Against") (hng : ¬ og.shot_outcome = some "Goal") :
    (og.team = away →
      ((og.minute < 120 →
          (get_match_score_details (events ++ [og]) home away).home_team_open_play =
            (get_match_score_details events home away).home_team_open_play + 1 ∧
          (get_match_score_details (events ++ [og]) home away).home_team_penalty =
            (get_match_score_details events home away).home_team_penalty) ∧
        (120 ≤ og.minute →
          (get_match_score_details (events ++ [og]) home away).home_team_penalty =
            (get_match_score_details events home away).home_team_penalty + 1 ∧
          (get_match_score_details (events ++ [og]) home away).home_team_open_play =
            (get_match_score_details events home away).home_team_open_play) ∧
        (get_match_score_details (events ++ [og]) home away).alway_team_open_play =
          (get_match_score_details events home away).alway_team_open_play ∧
        (get_match_score_details (events ++ [og]) home away).alway_team_penalty =
          (get_match_score_details events home away).alway_team_penalty) ∧
      strContains
        (get_match_score_details (events ++ [og]) home away).home_team_player_goals
        (pyDisplay og.player ++ " [OG]")) ∧
    (og.team = home →
      ((og.minute < 120 →
          (get_match_score_details (events ++ [og]) home away).alway_team_open_play =
            (get_match_score_details events home away).alway_team_open_play + 1 ∧
          (get_match_score_details (events ++ [og]) home away).alway_team_penalty =
            (get_match_score_details events home away).alway_team_penalty) ∧
        (120 ≤ og.minute →
          (get_match_score_details (events ++ [og]) home away).alway_team_penalty =
            (get_match_score_details events home away).alway_team_penalty + 1 ∧
          (get_match_score_details (events ++ [og]) home away).alway_team_open_play =
            (get_match_score_details events home away).alway_team_open_play) ∧
        (get_match_score_details (events ++ [og]) home away).home_team_open_play =
          (get_match_score_details events home away).home_team_open_play ∧
        (get_match_score_details (events ++ [og]) home away).home_team_penalty =
          (get_match_score_details events home away).home_team_penalty) ∧
      strContains
        (get_match_score_details (events ++ [og]) home away).alway_team_player_goals
        (pyDisplay og.player ++ " [OG]")) := by
  obtain ⟨o1, p1, ao1, ap1⟩ := score_counts_via_sides (events ++ [og]) home away hne
  obtain ⟨o0, p0, ao0, ap0⟩ := score_counts_via_sides events home away hne
  constructor
  · intro hteam2
    obtain ⟨hH, hA⟩ := home_side_snoc events home away hne og hteam2 htype hng
    refine ⟨⟨?_, ?_, ?_, ?_⟩, ?_⟩
    · intro hm
      constructor
      · rw [o1, o0, hH, List.filter_append, List.length_append]
        congr 1
        simp [List.filter_cons, hm]
      · rw [p1, p0, hH, List.filter_append, List.length_append]
        have hnot : ¬ (120 ≤ og.minute) := by omega
        simp [List.filter_cons, hnot]
    · intro hm
      constructor
      · rw [p1, p0, hH, List.filter_append, List.length_append]
        congr 1
        simp [List.filter_cons, hm]
      · rw [o1, o0, hH, List.filter_append, List.length_append]
        have hnot : ¬ (og.minute < 120) := by omega
        simp [List.filter_cons, hnot]
    · rw [ao1, ao0, hA]
    · rw [ap1, ap0, hA]
    · have hshow : (get_match_score_details (events ++ [og]) home away).home_team_player_goals
          = player_goals_text (home_team_player_goals (events ++ [og]) home away) := rfl
      rw [hshow, hH]
      exact strContains_text_snoc _ _ _ rfl
  · intro hteam2
    obtain ⟨hA, hH⟩ := alway_side_snoc events home away hne og hteam2 htype hng
    refine ⟨⟨?_, ?_, ?_, ?_⟩, ?_⟩
    · intro hm
      constructor
      · rw [ao1, ao0, hA, List.filter_append, List.length_append]
        congr 1
        simp [List.filter_cons, hm]
      · rw [ap1, ap0, hA, List.filter_append, List.length_append]
        have hnot : ¬ (120 ≤ og.minute) := by omega
        simp [List.filter_cons, hnot]
    · intro hm
      constructor
      · rw [ap1, ap0, hA, List.filter_append, List.length_append]
        congr 1
        simp [List.filter_cons, hm]
      · rw [ao1, ao0, hA, List.filter_append, List.length_append]
        have hnot : ¬ (og.minute < 120) := by omega
        simp [List.filter_cons, hnot]
    · rw [o1, o0, hH]
    · rw [p1, p0, hH]
    · have hshow : (get_match_score_details (events ++ [og]) home away).alway_team_player_goals
          = player_goals_text (alway_team_player_goals (events ++ [og]) home away) := rfl
      rw [hshow, hA]
      exact strContains_text_snoc _ _ _ rfl

/-- Base match for the C4 witness: one regular goal for "H" at minute 80. -/
def exC4Base : List MatchEvent :=
  [ { team := "H", player := some "Ann", minute := 80, type := "Shot",
      pass_outcome := none, shot_outcome := some "Goal", dribble_outcome := none,
      shot_type := some "Open Play" } ]

/-- Own-goal event for the C4 witness: conceded by "A" at minute 5. -/
def exC4OG : MatchEvent :=
  { team := "A", player := some "Bob", minute := 5, type := "Own Goal Against",
    pass_outcome := none, shot_outcome := none, dribble_outcome := none,
    shot_type := none }

/-- Witness for C4 at the concrete match: the own goal conceded by "A"
raises the home open-play count by one and puts "Bob [OG]" into the home
scorer string. -/
theorem claim_C4_witness :
    (get_match_score_details (exC4Base ++ [exC4OG]) "H" "A").home_team_open_play =
      (get_match_score_details exC4Base "H" "A").home_team_open_play + 1 ∧
    strContains
      ((get_match_score_details (exC4Base ++ [exC4OG]) "H" "A").home_team_player_goals)
      (pyDisplay exC4OG.player ++ " [OG]") := by
  have h := (claim_C4_own_goal_credit exC4Base "H" "A" (by decide) exC4OG rfl
    (by decide)).1 rfl
  exact ⟨(h.1.1 (by decide)).1, h.2⟩

/-! Embedding of the team stat aggregator `get_match_stats_summary`
(`src/stats/matches.py` lines 274-314).  Its configuration refers to event
columns by name (and guards with `key in team_events.columns`), so here an
event table is embedded as a DataFrame with an explicit column list and
per-row cells; a cell absent from a row is NaN. -/

/-- One DataFrame row: the non-NaN cells, keyed by column name. -/
structure EventRow where
  cells : List (String × String)
deriving Repr, DecidableEq

/-- A DataFrame: its column names and its rows. -/
structure EventFrame where
  cols : List String
  rows : List EventRow
deriving Repr, DecidableEq

/-- The value of a row at a column; `none` is NaN. -/
def cellVal (r : EventRow) (c : String) : Option String := r.cells.lookup c

/-- Pandas scalar comparison of the `team` cell with a value taken from
`unique()` (which may itself be NaN); a comparison against NaN is false. -/
def pandasTeamEq (r : EventRow) : Option String → Bool
  | some t => cellVal r "team" = some t
  | none => false

def pyUniqueAux : List (Option String) → List (Option String) → List (Option String)
  | [], _ => []
  | x :: xs, seen =>
    if x ∈ seen then pyUniqueAux xs seen else x :: pyUniqueAux xs (x :: seen)

/-- Pandas `unique()`: first occurrences, in order. -/
def pyUnique (l : List (Option String)) : List (Option String) := pyUniqueAux l []

/-- A value of the duck-typed stats map: either an event-type string or a
dict of field-name → required value. -/
inductive StatSpec where
  | typeName : String → StatSpec
  | fieldMap : List (String × String) → StatSpec
deriving Repr, DecidableEq

/-- The stat loop body (`src/stats/matches.py` lines 302-311): a string
counts rows of the given `type`; a dict starts at 0 and, for each pair
whose key is a column of the frame, adds the count of rows whose cell
equals the value (a missing key adds nothing). -/
def statValue (cols : List String) (team_events : List EventRow) : StatSpec → Nat
  | .typeName t => (team_events.filter (fun r => cellVal r "type" = some t)).length
  | .fieldMap pairs =>
      pairs.foldl (fun stat kv =>
        if kv.1 ∈ cols then
          stat + (team_events.filter (fun r => cellVal r kv.1 = some kv.2)).length
        else stat) 0

/-- Embedding of `get_match_stats_summary` (`src/stats/matches.py` lines
274-314): for each team of `events["team"].unique()`, compute every
configured stat over that team's rows. -/
def get_match_stats_summary (events : EventFrame)
    (stats_map : List (String × StatSpec)) :
    List (Option String × List (String × Nat)) :=
  (pyUnique (events.rows.map (fun r => cellVal r "team"))).map (fun team =>
    (team,
      stats_map.map (fun s =>
        (s.1, statValue events.cols
          (events.rows.filter (fun r => pandasTeamEq r team)) s.2))))

theorem statValue_filter_cols (cols : List String) (rs : List EventRow)
    (pairs : List (String × String)) :
    statValue cols rs (.fieldMap pairs) =
      statValue cols rs (.fieldMap (pairs.filter (fun kv => kv.1 ∈ cols))) := by
  show List.foldl _ 0 pairs = List.foldl _ 0 _
  generalize 0 = acc
  induction pairs generalizing acc with
  | nil => rfl
  | cons kv ps ih =>
    by_cases hk : kv.1 ∈ cols
    · have hd : decide (kv.1 ∈ cols) = true := by simpa using hk
      rw [List.foldl_cons, List.filter_cons, hd, if_pos rfl, List.foldl_cons]
      exact ih _
    · have hd : decide (kv.1 ∈ cols) = false := by simpa using hk
      rw [List.foldl_cons, List.filter_cons, hd, if_neg Bool.false_ne_true, if_neg hk]
      exact ih _

theorem statValue_all_missing (cols : List String) (rs : List EventRow)
    (pairs : List (String × String)) (h : ∀ kv ∈ pairs, kv.1 ∉ cols) :
    statValue cols rs (.fieldMap pairs) = 0 := by
  show List.foldl _ 0 pairs = 0
  induction pairs with
  | nil => rfl
  | cons kv ps ih =>
    rw [List.foldl_cons, if_neg (h kv (by simp))]
    exact ih (fun kv2 hkv2 => h kv2 (by simp [hkv2]))

/-- Concrete two-team frame without a `pass_type` column. -/
def exC7Frame : EventFrame :=
  { cols := ["team", "type"],
    rows := [ { cells := [("team", "H"), ("type", "Pass")] },
              { cells := [("team", "A"), ("type", "Shot")] } ] }

/-- C7: a dict-style configuration entry contributes zero for every
referenced field that is not a column of the event frame (the computed
stat equals the one computed from the present fields alone); when every
referenced field is missing, the entry yields the count 0 for every team
(the aggregator still returns a value, it does not fail); in particular
the entry Corners = ("pass_type" = "Corner") over a frame without a
`pass_type` column yields 0 for both teams. -/
theorem claim_C7_missing_field_zero :
    (∀ (cols : List String) (rs : List EventRow) (pairs : List (String × String)),
      statValue cols rs (.fieldMap pairs) =
        statValue cols rs (.fieldMap (pairs.filter (fun kv => kv.1 ∈ cols)))) ∧
    (∀ (events : EventFrame) (stats_map : List (String × StatSpec))
        (label : String) (pairs : List (String × String)),
      (label, StatSpec.fieldMap pairs) ∈ stats_map →
      (∀ kv ∈ pairs, kv.1 ∉ events.cols) →
      ∀ p ∈ get_match_stats_summary events stats_map, (label, 0) ∈ p.2) ∧
    get_match_stats_summary exC7Frame
        [("Corners", StatSpec.fieldMap [("pass_type", "Corner")])] =
      [(some "H", [("Corners", 0)]), (some "A", [("Corners", 0)])] := by
  refine ⟨statValue_filter_cols, ?_, by decide⟩
  intro events stats_map label pairs hmem hmissing p hp
  obtain ⟨team, _, rfl⟩ := List.mem_map.mp hp
  exact List.mem_map.mpr ⟨(label, StatSpec.fieldMap pairs), hmem,
    by rw [statValue_all_missing events.cols _ pairs hmissing]⟩

/-- Witness for C7: applying the theorem to the concrete frame, the
"Corners" stat of the first listed team is 0. -/
theorem claim_C7_witness :
    ("Corners", (0 : Nat)) ∈
      ((get_match_stats_summary exC7Frame
        [("Corners", StatSpec.fieldMap [("pass_type", "Corner")])]).headD
          (none, [])).2 :=
  claim_C7_missing_field_zero.2.1 exC7Frame
    [("Corners", StatSpec.fieldMap [("pass_type", "Corner")])] "Corners"
    [("pass_type", "Corner")] (by decide) (by decide) _ (by decide)

/-! Embedding of the `/player_stats` HTTP endpoint (`src/routers/api.py`
lines 61-102).  The endpoint body calls
`get_players_stats(competition_id=…, season_id=…, match_id=…,
player_name=…, time=…)`; the called function — imported through
`src/tools/football.py` from `src/stats/matches.py` line 60 — declares
only the parameters `match_id` and `time`.  Python raises `TypeError` for
a keyword argument the callee does not declare, and the endpoint's
`except ValueError` clause does not catch `TypeError`, so the exception
escapes the handler.  The success path (which would parse the JSON and
return it, or 404 on a parse failure) is unreachable; it is abstracted by
the `statsResult` parameter. -/

/-- Keyword parameters declared by `stats.matches.get_players_stats`
(`src/stats/matches.py` line 60). -/
def get_players_stats_params : List String := ["match_id", "time"]

/-- Keyword arguments the endpoint passes in its call
(`src/routers/api.py` lines 86-92). -/
def player_stats_call_kwargs : List String :=
  ["competition_id", "season_id", "match_id", "player_name", "time"]

/-- Exception classes caught by the endpoint's outer handler
(`src/routers/api.py` line 101): only `ValueError`. -/
def player_stats_caught : List String := ["ValueError"]

/-- Outcome of one request: a successful JSON body, a handled HTTP error
status, or an exception that escapes the endpoint (an unhandled server
error, HTTP 500 at the framework boundary). -/
inductive EndpointOutcome where
  | ok : String → EndpointOutcome
  | httpError : Nat → EndpointOutcome
  | unhandled : String → EndpointOutcome
deriving Repr, DecidableEq

/-- The `/player_stats` endpoint: if every keyword argument of the call
were declared by the callee the body would proceed to the success path;
otherwise the call raises `TypeError`, which is handled only if listed in
the caught exception classes (it is not). -/
def player_stats_endpoint (_competition_id _season_id _match_id : Int)
    (_player_name _time : String) (statsResult : String) : EndpointOutcome :=
  if player_stats_call_kwargs.all (fun k => k ∈ get_players_stats_params) then
    EndpointOutcome.ok statsResult
  else if "TypeError" ∈ player_stats_caught then
    EndpointOutcome.httpError 400
  else EndpointOutcome.unhandled "TypeError"

/-- C9 (code bug): for every request — whatever the identifiers, player
name, time selector, and whatever the stats layer would have returned —
the `/player_stats` endpoint raises an unhandled `TypeError` instead of
returning the `PlayerStats` record or a 400/404, because its call passes
the keyword arguments `competition_id`, `season_id` and `player_name`
that `get_players_stats` does not declare. -/
theorem claim_C9_endpoint_type_error (competition_id season_id match_id : Int)
    (player_name time statsResult : String) :
    player_stats_endpoint competition_id season_id match_id player_name time
      statsResult = EndpointOutcome.unhandled "TypeError" := rfl
